import Mathlib

set_option maxRecDepth 20000

/-!
Verification of the local-brain review orchestration pipeline.

The definitions below are a shallow embedding of `src/main.rs`: every pure
function is transcribed directly; process state (CLI arguments, the
`MODEL_NAME` environment variable, filesystem reads, the HTTP inference
backend and wall-clock timing) is threaded explicitly through the `Cli` and
`Env` records instead of being read ambiently.
-/

deriving instance DecidableEq for Except

/-- Rust `char::is_whitespace`, restricted to the ASCII whitespace characters
this program meets (space, tab, newline, carriage return). -/
def isWsChar (c : Char) : Bool :=
  c = ' ' || c = '\t' || c = '\n' || c = '\r'

/-- Rust `str::trim` on the underlying character list. -/
def trimChars (cs : List Char) : List Char :=
  ((cs.dropWhile isWsChar).reverse.dropWhile isWsChar).reverse

/-- Embeds Rust `str::trim`. -/
def rustTrim (s : String) : String :=
  String.mk (trimChars s.data)

/-- Rust `str::split` on a single separator character: every separator starts
a new (possibly empty) field, so the result is never empty — in particular
splitting the empty string yields `[""]`. -/
def splitOnCharAux (sep : Char) : List Char → List Char → List String
  | [], acc => [String.mk acc.reverse]
  | c :: rest, acc =>
    if c = sep then String.mk acc.reverse :: splitOnCharAux sep rest []
    else splitOnCharAux sep rest (c :: acc)

/-- Rust `str::split` with a one-character separator. -/
def splitOnChar (sep : Char) (s : String) : List String :=
  splitOnCharAux sep s.data []

/-- Models Rust `Path::file_name` for the path shapes this program handles:
the final path component (empty and `.` components ignored), `none` when the
path is empty or ends in a parent reference. -/
def fileNameOf (path : String) : Option String :=
  let comps := (splitOnChar '/' path).filter (fun c => c != "" && c != ".")
  match comps.getLast? with
  | none => none
  | some base => if base = ".." then none else some base

/-- Information about a single model (`struct ModelInfo`).  `size_gb` is an
`f32` in the source that is only ever displayed, never computed with; it is
carried here as its literal text and never interpreted numerically. -/
structure ModelInfo where
  name : String
  size_gb : String
  parameters : String
  speed : String
deriving DecidableEq

/-- Model registry loaded from models.json (`struct ModelRegistry`).  The
source's `HashMap` of task mappings is modeled as an association list with
first-match lookup. -/
structure ModelRegistry where
  models : List ModelInfo
  task_mappings : List (String × String)
  default_model : String
deriving DecidableEq

/-- Priority for model selection (`enum ModelPriority`). -/
inductive ModelPriority where
  | CliFlag (model : String)
  | Task (task : String)
  | EnvVar (model : String)
  | Default
deriving DecidableEq

/-- Parsed command-line arguments (`struct Cli`).  `timeout` is the `u64`
seconds value; `runs` is the `usize` run count (default 1). -/
structure Cli where
  model : Option String
  task : Option String
  git_diff : Bool
  dir : Option String
  pattern : Option String
  files : Option String
  dry_run : Bool
  kind : Option String
  review_focus : Option String
  timeout : Option Nat
  runs : Nat
  validation_mode : Bool
  show_metrics : Bool
deriving DecidableEq

/-- The process-level collaborators the pipeline reads:
`model_name_env` is the `MODEL_NAME` environment variable; `registry` is the
(idempotent, per-process) result of `load_model_registry`; `readFile` models
`fs::read_to_string` (`none` meaning an io error); `ollama` models
`call_ollama`, whose outcome is nondeterministic across invocations and is
therefore indexed by the run number of the multi-run loop (1 for single-run
calls); `durStr` and `avgDur` stand for the formatted wall-clock duration of
a run and the formatted average duration of a set of runs
(`Instant::now`-based timing is real time, outside the embedding). -/
structure Env where
  model_name_env : Option String
  registry : Except String ModelRegistry
  readFile : String → Option String
  ollama : Nat → String → String → String → Nat → Except String String
  durStr : Nat → String
  avgDur : List Nat → String

/-- `HashMap::get` on the task-mapping table (iteration order modeled as
insertion order). -/
def lookupMap (m : List (String × String)) (k : String) : Option String :=
  (m.find? (fun p => p.1 == k)).map (fun p => p.2)

/-- Joins strings with a separator (`Vec::join`). -/
def joinSep (sep : String) : List String → String
  | [] => ""
  | [s] => s
  | s :: rest => s ++ sep ++ joinSep sep rest

/-- The `anyhow!` message built by `resolve_model_priority` for an unknown
task label; it enumerates all known task labels. -/
def unknown_task_message (task : String) (registry : ModelRegistry) : String :=
  "Unknown task type: \x27" ++ task ++ "\x27. Available tasks: " ++
    joinSep ", " (registry.task_mappings.map (fun p => p.1))

/-- Embeds `determine_model_priority`: CLI `--model` flag first, then the
`--task` flag, then the `MODEL_NAME` environment variable, then the registry
default. -/
def determine_model_priority (cli : Cli) (model_name_env : Option String) :
    ModelPriority :=
  match cli.model with
  | some model => .CliFlag model
  | none =>
    match cli.task with
    | some task => .Task task
    | none =>
      match model_name_env with
      | some model => .EnvVar model
      | none => .Default

/-- Embeds `resolve_model_priority`: `CliFlag` and `EnvVar` are returned
verbatim; `Task` and `Default` load the registry (whose load result is the
`load_registry` argument). -/
def resolve_model_priority (load_registry : Except String ModelRegistry) :
    ModelPriority → Except String String
  | .CliFlag model => .ok model
  | .EnvVar model => .ok model
  | .Task task =>
    match load_registry with
    | .error e => .error e
    | .ok registry =>
      match lookupMap registry.task_mappings task with
      | some model => .ok model
      | none => .error (unknown_task_message task registry)
  | .Default =>
    match load_registry with
    | .error e => .error e
    | .ok registry => .ok registry.default_model

/-- Embeds `select_model`. -/
def select_model (cli : Cli) (env : Env) : Except String String :=
  resolve_model_priority env.registry (determine_model_priority cli env.model_name_env)

/-- Embeds `select_model_adaptive`.  With an explicit `--model` and more than
one file the registry is still loaded (for the advisory warning), so a load
failure propagates; without an explicit model, a moderate/slow resolved model
and more than one file trigger substitution of the first fast/very-fast
descriptor in registry order. -/
def select_model_adaptive (cli : Cli) (env : Env) (file_count : Nat) :
    Except String String :=
  match select_model cli env with
  | .error e => .error e
  | .ok selected_model =>
    if cli.model.isSome then
      if file_count > 1 then
        match env.registry with
        | .error e => .error e
        | .ok _registry => .ok selected_model
      else .ok selected_model
    else
      if file_count > 1 then
        match env.registry with
        | .error e => .error e
        | .ok registry =>
          match registry.models.find? (fun m => m.name == selected_model) with
          | some model_info =>
            if (model_info.speed == "moderate" || model_info.speed == "slow")
                && file_count > 1 then
              match registry.models.find?
                  (fun m => m.speed == "fast" || m.speed == "very-fast") with
              | some fast_model => .ok fast_model.name
              | none => .ok selected_model
            else .ok selected_model
          | none => .ok selected_model
      else .ok selected_model

/-- The `cli.timeout.unwrap_or(120)` expression of `review_file_with_count`
(the Ollama request timeout in seconds). -/
def timeout_secs (cli : Cli) : Nat :=
  cli.timeout.getD 120

/-- Embeds `build_prompt`: the system/user prompt pair.  The source returns
`Result` but never fails, so the pair is returned directly. -/
def build_prompt (document filename : String) (kind review_focus : Option String) :
    String × String :=
  let system_prompt :=
    "You are a senior code and document reviewer.\n\nYou receive a document and metadata, and must produce a structured review in Markdown format.\n\nUse the following structure with these exact headings:\n\n## Issues Found\n- **Title**: Description (lines: X-Y)\n- **Title**: Description\n\n## Simplifications\n- **Title**: Description\n\n## Consider Later\n- **Title**: Description\n\n## Other Observations\n- General note\n- Another observation\n\n**Rules**:\n- Each item must be SHORT and FOCUSED (1-3 sentences max)\n- Do NOT repeat the entire document\n- Focus on actionable insights\n- Output clean Markdown with proper headings\n- Use - for bullet points, **bold** for titles\n- Include line numbers for issues when relevant"
  let kindText := kind.getD "unknown"
  let focus := review_focus.getD "general"
  let user_prompt :=
    "**File**: " ++ filename ++ "\n**Kind**: " ++ kindText ++
      "\n**Review Focus**: " ++ focus ++ "\n\n**Document Content**:\n" ++ document ++
      "\n\nProvide your structured review in Markdown format with the specified headings."
  (system_prompt, user_prompt)

/-- Embeds `review_file_with_count`: select the model adaptively, read the
file, build the prompts, then either report the dry-run diagnostic or call
the backend with `cli.timeout.unwrap_or(120)` seconds.  The `run` index
selects this invocation's backend outcome (see `Env.ollama`). -/
def review_file_with_count (cli : Cli) (env : Env) (file_path : String)
    (file_count : Nat) (run : Nat) : Except String String :=
  match select_model_adaptive cli env file_count with
  | .error e => .error e
  | .ok selected_model =>
    match env.readFile file_path with
    | none => .error ("Failed to read file: \"" ++ file_path ++ "\"")
    | some document =>
      let filename := (fileNameOf file_path).getD "unknown"
      let ps := build_prompt document filename cli.kind cli.review_focus
      if cli.dry_run then
        .ok ("## Dry Run Information\n\n- Model: " ++ selected_model ++
          "\n- File: " ++ filename ++ " (" ++ toString document.utf8ByteSize ++
          " bytes)\n- System prompt: " ++ toString ps.1.utf8ByteSize ++
          " chars\n- User prompt: " ++ toString ps.2.utf8ByteSize ++ " chars\n")
      else
        env.ollama run ps.1 ps.2 selected_model (timeout_secs cli)

/-- The successful runs of the multi-run loop of `review_file_multi_run`, in
run order, each with its run number (failed runs are logged and skipped). -/
def successfulRuns (cli : Cli) (env : Env) (file_path : String)
    (file_count : Nat) : List (Nat × String) :=
  (List.range' 1 cli.runs).filterMap (fun run_num =>
    match review_file_with_count cli env file_path file_count run_num with
    | .ok markdown => some (run_num, markdown)
    | .error _ => none)

/-- The non-validation multi-run output: runs joined with `---` separators and
renumbered `## Run i` headings (`i` counts successful runs only). -/
def joinRuns (results : List String) : String :=
  (results.enum.map (fun p =>
      (if p.1 > 0 then "\n---\n\n" else "") ++ "## Run " ++ toString (p.1 + 1) ++
        "\n\n" ++ p.2)).foldl (fun a b => a ++ b) ""

/-- Embeds `format_validation_report`.  The per-run duration strings and the
average-duration string are the wall-clock figures the source formats from
`f64` seconds; they enter as oracle inputs. -/
def format_validation_report (results : List String) (durations : List String)
    (avg : String) (show_metrics : Bool) : String :=
  let header := "## Validation Report\n\n- **Total Runs**: " ++
    toString results.length ++ "\n- **Average Duration**: " ++ avg ++ "s\n"
  let metrics :=
    if show_metrics then
      "\n## Run Metrics\n\n| Run | Duration | Status |\n|-----|----------|--------|\n" ++
        (durations.enum.map (fun p =>
          "| " ++ toString (p.1 + 1) ++ " | " ++ p.2 ++ "s | ✓ |\n")).foldl
          (fun a b => a ++ b) ""
    else ""
  let allRuns := "\n## All Runs\n\n" ++
    (results.enum.map (fun p =>
      "### Run " ++ toString (p.1 + 1) ++ "\n\n" ++ p.2 ++ "\n\n")).foldl
      (fun a b => a ++ b) ""
  header ++ metrics ++ allRuns

/-- The output `review_file_multi_run` builds from its successful runs:
either the validation report or the joined runs. -/
def renderRuns (cli : Cli) (env : Env) (recs : List (Nat × String)) : String :=
  if cli.validation_mode then
    format_validation_report (recs.map (fun r => r.2))
      (recs.map (fun r => env.durStr r.1)) (env.avgDur (recs.map (fun r => r.1)))
      cli.show_metrics
  else
    joinRuns (recs.map (fun r => r.2))

/-- Embeds `review_file_multi_run`: one plain review when `runs <= 1`;
otherwise run the review `runs` times, bail with "All validation runs failed"
when no run succeeded, and otherwise aggregate the successful runs only. -/
def review_file_multi_run (cli : Cli) (env : Env) (file_path : String)
    (file_count : Nat) : Except String String :=
  if cli.runs ≤ 1 then review_file_with_count cli env file_path file_count 1
  else
    let recs := successfulRuns cli env file_path file_count
    if recs.isEmpty then .error "All validation runs failed"
    else .ok (renderRuns cli env recs)

/-- What one batch run produces: each file's path with its per-file review
result (errors are logged to stderr and the file skipped), plus the stdout
document. -/
structure BatchResult where
  perFile : List (String × Except String String)
  output : String
deriving DecidableEq

/-- Embeds `review_multiple_files`: review every file (multi-run aware),
collect the markdown sections of the successful ones under `### <filename>`
headings, and print either the aggregated document or the
"No Reviews Generated" marker. -/
def review_multiple_files (cli : Cli) (env : Env) (files : List String) :
    BatchResult :=
  let perFile := files.map (fun file_path =>
    (file_path, review_file_multi_run cli env file_path files.length))
  let markdown_sections := perFile.filterMap (fun pr =>
    match pr.2 with
    | .ok markdown =>
      some ("### " ++ ((fileNameOf pr.1).getD "unknown") ++ "\n\n" ++ markdown)
    | .error _ => none)
  let output :=
    if markdown_sections.isEmpty then "# No Reviews Generated\n\n"
    else "# Code Review\n\n" ++
      (markdown_sections.map (fun s => s ++ "\n\n")).foldl (fun a b => a ++ b) ""
  ⟨perFile, output⟩

/-- The two ways a mode handler can finish: the distinct zero-targets outcome
(with its stderr message), or a reviewed batch. -/
inductive RunOutcome where
  | noFiles (msg : String)
  | batch (result : BatchResult)
deriving DecidableEq

/-- Whether a handler result is the zero-targets outcome. -/
def isNoFiles : Except String RunOutcome → Bool
  | .ok (.noFiles _) => true
  | _ => false

/-- The file-list parse of `handle_files`: split the `--files` argument on
`,` and trim each path. -/
def split_files_arg (s : String) : List String :=
  (splitOnChar ',' s).map rustTrim

/-- Embeds `handle_files`.  The source unwraps `cli.files` (the mode is only
entered when it is present). -/
def handle_files (cli : Cli) (env : Env) : Except String RunOutcome :=
  let file_paths := split_files_arg (cli.files.getD "")
  if file_paths.isEmpty then .ok (.noFiles "No files specified")
  else .ok (.batch (review_multiple_files cli env file_paths))

/-- Embeds `handle_directory`.  The recursive filesystem walk of
`collect_files_in_dir` is external state; its result (or its
`DiscoveryError`) enters as the `discovered` argument. -/
def handle_directory (cli : Cli) (env : Env)
    (discovered : Except String (List String)) : Except String RunOutcome :=
  match discovered with
  | .error e => .error e
  | .ok files =>
    let patternText := cli.pattern.getD "*"
    if files.isEmpty then
      .ok (.noFiles ("No files found matching pattern \x27" ++ patternText ++
        "\x27 in " ++ cli.dir.getD ""))
    else .ok (.batch (review_multiple_files cli env files))

/-- Embeds `matches_pattern`: `*` matches everything; `*.<ext>` is an
extension suffix match; `*.\x7bext1,ext2\x7d` is an alternation of extension
suffixes; anything else must equal the filename exactly.  Matching is against
`Path::file_name` only. -/
def matches_pattern (path : String) (pattern : String) : Bool :=
  if pattern = "*" then true
  else
    let filename := (fileNameOf path).getD ""
    match pattern.data with
    | '*' :: '.' :: extChars =>
      let ext := String.mk extChars
      if ext.data.contains ',' || ext.data.contains '\x7b' then
        let extensions :=
          if ext.data.head? = some '\x7b' && ext.data.getLast? = some '\x7d' then
            splitOnChar ',' (String.mk ((ext.data.drop 1).dropLast))
          else [ext]
        extensions.any (fun e =>
          (filename.data.reverse.take (e.data.length + 1)) ==
            (("." ++ e).data.reverse))
      else
        (filename.data.reverse.take (ext.data.length + 1)) ==
          (("." ++ ext).data.reverse)
    | _ => filename == pattern

/-- JSON values, as produced by `serde_json` for the documents this program
parses.  Numbers are carried as their literal text (`size_gb` is the only
numeric field and is never computed with). -/
inductive Json where
  | null
  | bool (b : Bool)
  | num (raw : String)
  | str (s : String)
  | arr (items : List Json)
  | obj (fields : List (String × Json))

/-- Skips JSON insignificant whitespace. -/
def skipWs : List Char → List Char
  | c :: cs => if isWsChar c then skipWs cs else c :: cs
  | [] => []

/-- Hexadecimal digit test for `\u` escapes. -/
def isHexChar (c : Char) : Bool :=
  c.isDigit || ('a' ≤ c && c ≤ 'f') || ('A' ≤ c && c ≤ 'F')

/-- Parses the body of a JSON string literal (after the opening quote),
handling the standard escapes.  `\u` escapes outside the basic plane or in
surrogate pairs do not occur in this program's documents and are mapped
through `Char.ofNat` directly. -/
def parseStringBody (fuel : Nat) (cs : List Char) (acc : List Char) :
    Except String (String × List Char) :=
  match fuel with
  | 0 => .error "string literal too long"
  | fuel' + 1 =>
    match cs with
    | [] => .error "unterminated string"
    | '"' :: rest => .ok (String.mk acc.reverse, rest)
    | '\\' :: esc :: rest =>
      match esc with
      | '"' => parseStringBody fuel' rest ('"' :: acc)
      | '\\' => parseStringBody fuel' rest ('\\' :: acc)
      | '/' => parseStringBody fuel' rest ('/' :: acc)
      | 'n' => parseStringBody fuel' rest ('\n' :: acc)
      | 't' => parseStringBody fuel' rest ('\t' :: acc)
      | 'r' => parseStringBody fuel' rest ('\r' :: acc)
      | 'b' => parseStringBody fuel' rest (Char.ofNat 8 :: acc)
      | 'f' => parseStringBody fuel' rest (Char.ofNat 12 :: acc)
      | 'u' =>
        match rest with
        | a :: b :: c :: d :: rest' =>
          if isHexChar a && isHexChar b && isHexChar c && isHexChar d then
            let hexVal := fun (h : Char) =>
              if h.isDigit then h.toNat - 48
              else if h ≥ 'a' then h.toNat - 87 else h.toNat - 55
            parseStringBody fuel' rest'
              (Char.ofNat (((hexVal a * 16 + hexVal b) * 16 + hexVal c) * 16 + hexVal d) :: acc)
          else .error "invalid unicode escape"
        | _ => .error "invalid unicode escape"
      | _ => .error "invalid escape"
    | '\\' :: [] => .error "unterminated string"
    | c :: rest =>
      if c.toNat < 32 then .error "control character in string"
      else parseStringBody fuel' rest (c :: acc)

/-- Characters that may occur in a JSON number literal. -/
def numChar (c : Char) : Bool :=
  c.isDigit || c = '-' || c = '+' || c = '.' || c = 'e' || c = 'E'

/-- Checks that `lit` occurs literally at the head of `cs`. -/
def expectLit : List Char → List Char → Option (List Char)
  | [], cs => some cs
  | l :: lit, c :: cs => if c = l then expectLit lit cs else none
  | _ :: _, [] => none

mutual

/-- Parses one JSON value.  Number literals are validated only for their
character set (no claim interprets a number), everything else follows the
JSON grammar `serde_json` accepts. -/
def parseValue (fuel : Nat) (cs : List Char) : Except String (Json × List Char) :=
  match fuel with
  | 0 => .error "input too deeply nested"
  | fuel' + 1 =>
    match skipWs cs with
    | [] => .error "unexpected end of input"
    | c :: rest =>
      if c = '"' then
        match parseStringBody (rest.length + 1) rest [] with
        | .error e => .error e
        | .ok (s, rest') => .ok (.str s, rest')
      else if c = '\x7b' then
        match skipWs rest with
        | '\x7d' :: rest' => .ok (.obj [], rest')
        | rest' => parseMembers fuel' rest' []
      else if c = '[' then
        match skipWs rest with
        | ']' :: rest' => .ok (.arr [], rest')
        | rest' => parseItems fuel' rest' []
      else if c = 't' then
        match expectLit ['r', 'u', 'e'] rest with
        | some rest' => .ok (.bool true, rest')
        | none => .error "expected value"
      else if c = 'f' then
        match expectLit ['a', 'l', 's', 'e'] rest with
        | some rest' => .ok (.bool false, rest')
        | none => .error "expected value"
      else if c = 'n' then
        match expectLit ['u', 'l', 'l'] rest with
        | some rest' => .ok (.null, rest')
        | none => .error "expected value"
      else if c = '-' || c.isDigit then
        let raw := (c :: rest).takeWhile numChar
        .ok (.num (String.mk raw), (c :: rest).drop raw.length)
      else .error "expected value"

/-- Parses the members of a JSON object, positioned at the first key. -/
def parseMembers (fuel : Nat) (cs : List Char)
    (acc : List (String × Json)) : Except String (Json × List Char) :=
  match fuel with
  | 0 => .error "input too deeply nested"
  | fuel' + 1 =>
    match skipWs cs with
    | '"' :: rest =>
      match parseStringBody (rest.length + 1) rest [] with
      | .error e => .error e
      | .ok (key, rest') =>
        match skipWs rest' with
        | ':' :: rest'' =>
          match parseValue fuel' rest'' with
          | .error e => .error e
          | .ok (v, rest''') =>
            match skipWs rest''' with
            | ',' :: more => parseMembers fuel' more ((key, v) :: acc)
            | '\x7d' :: more => .ok (.obj ((key, v) :: acc).reverse, more)
            | _ => .error "expected comma or closing brace"
        | _ => .error "expected colon"
    | _ => .error "expected object key"

/-- Parses the items of a JSON array, positioned at the first item. -/
def parseItems (fuel : Nat) (cs : List Char) (acc : List Json) :
    Except String (Json × List Char) :=
  match fuel with
  | 0 => .error "input too deeply nested"
  | fuel' + 1 =>
    match parseValue fuel' cs with
    | .error e => .error e
    | .ok (v, rest) =>
      match skipWs rest with
      | ',' :: more => parseItems fuel' more (v :: acc)
      | ']' :: more => .ok (.arr (v :: acc).reverse, more)
      | _ => .error "expected comma or closing bracket"

end

/-- `serde_json::from_str`'s outer behaviour: parse one value and require
that only whitespace follows. -/
def parseJsonText (s : String) : Except String Json :=
  match parseValue (s.data.length + 1) s.data with
  | .error e => .error e
  | .ok (v, rest) =>
    if (skipWs rest).isEmpty then .ok v else .error "trailing characters"

/-- Field lookup during `serde` struct decoding. -/
def getField (fields : List (String × Json)) (k : String) : Option Json :=
  (fields.find? (fun p => p.1 == k)).map (fun p => p.2)

/-- Decodes a required `serde` string field. -/
def getStrField (fields : List (String × Json)) (k : String) :
    Except String String :=
  match getField fields k with
  | some (.str s) => .ok s
  | some _ => .error ("invalid type for field `" ++ k ++ "`")
  | none => .error ("missing field `" ++ k ++ "`")

/-- Decodes one element of the `models` array (`struct ModelInfo`). -/
def decodeModelInfo (j : Json) : Except String ModelInfo :=
  match j with
  | .obj fields =>
    match getStrField fields "name" with
    | .error e => .error e
    | .ok nameVal =>
      match getField fields "size_gb" with
      | some (.num raw) =>
        match getStrField fields "parameters" with
        | .error e => .error e
        | .ok parametersVal =>
          match getStrField fields "speed" with
          | .error e => .error e
          | .ok speedVal => .ok ⟨nameVal, raw, parametersVal, speedVal⟩
      | some _ => .error "invalid type for field `size_gb`"
      | none => .error "missing field `size_gb`"
  | _ => .error "invalid type: expected struct ModelInfo"

/-- Decodes `struct ModelRegistry` the way `serde`'s derived implementation
does: all three fields are required — `models` is a plain `Vec` with no
default, so a document without it is rejected. -/
def decodeModelRegistry (j : Json) : Except String ModelRegistry :=
  match j with
  | .obj fields =>
    match getField fields "models" with
    | some (.arr items) =>
      match items.mapM decodeModelInfo with
      | .error e => .error e
      | .ok models =>
        match getField fields "task_mappings" with
        | some (.obj mapFields) =>
          match mapFields.mapM (fun p =>
              match p.2 with
              | .str v => Except.ok (p.1, v)
              | _ => Except.error "invalid type: expected a string") with
          | .error e => .error e
          | .ok task_mappings =>
            match getStrField fields "default_model" with
            | .error e => .error e
            | .ok default_model => .ok ⟨models, task_mappings, default_model⟩
        | some _ => .error "invalid type for field `task_mappings`"
        | none => .error "missing field `task_mappings`"
    | some _ => .error "invalid type for field `models`"
    | none => .error "missing field `models`"
  | _ => .error "invalid type: expected struct ModelRegistry"

/-- Embeds `load_model_registry`: `models_json` is the text found by the
two-location file search (`none` when neither location has the file); a read
failure or a parse/decode failure each surface as their `context` message. -/
def load_model_registry (models_json : Option String) :
    Except String ModelRegistry :=
  match models_json with
  | none =>
    .error "Failed to read models.json. Ensure models.json exists in the current directory or next to the binary."
  | some text =>
    match parseJsonText text with
    | .error _ => .error "Failed to parse models.json"
    | .ok j =>
      match decodeModelRegistry j with
      | .error _ => .error "Failed to parse models.json"
      | .ok registry => .ok registry

/-- Decodes `struct OllamaResponse` (a `message` object with a `content`
string) from a response body. -/
def ollama_response_content (response_text : String) : Except String String :=
  match parseJsonText response_text with
  | .error e => .error e
  | .ok (.obj fields) =>
    match getField fields "message" with
    | some (.obj messageFields) =>
      match getField messageFields "content" with
      | some (.str content) => .ok content
      | some _ => .error "invalid type for field `content`"
      | none => .error "missing field `content`"
    | some _ => .error "invalid type for field `message`"
    | none => .error "missing field `message`"
  | .ok _ => .error "invalid type: expected struct OllamaResponse"

/-- Embeds the response handling of `call_ollama` (after the HTTP transport
and status check): reject an empty body, parse the body as an
`OllamaResponse` directly — there is no fenced-block handling and no retry —
and reject empty content.  The parse-failure message is the `context` string
carrying the first 200 characters of the raw text. -/
def call_ollama_handle_text (response_text : String) : Except String String :=
  if rustTrim response_text = "" then
    .error "Ollama returned empty response. The model may have crashed or disconnected."
  else
    match ollama_response_content response_text with
    | .error _ =>
      .error ("Failed to parse Ollama response. First 200 chars: " ++
        String.mk (response_text.data.take 200))
    | .ok content =>
      if rustTrim content = "" then
        .error "Ollama returned empty content. The model may not have generated a response."
      else .ok content

/-- The triple-backtick fence wrapping (tagged `json`) that the specification
attributes to backend responses. -/
def jsonFence (s : String) : String :=
  "```json\n" ++ s ++ "\n```"

/-- Claim C1: for every combination of present selection sources, resolution
returns the source of highest priority in the fixed order explicit override >
task mapping > environment value > registry default; higher-priority sources
short-circuit the lower ones, and explicit and environment values are
returned verbatim with no registry validation (those two cases hold for every
registry load result, including a failed load). -/
theorem select_model_priority_order (cli : Cli) (env : Env) :
    (∀ m, cli.model = some m → select_model cli env = .ok m) ∧
    (∀ t reg m, cli.model = none → cli.task = some t →
      env.registry = .ok reg → lookupMap reg.task_mappings t = some m →
      select_model cli env = .ok m) ∧
    (∀ t reg, cli.model = none → cli.task = some t →
      env.registry = .ok reg → lookupMap reg.task_mappings t = none →
      select_model cli env = .error (unknown_task_message t reg)) ∧
    (∀ m, cli.model = none → cli.task = none → env.model_name_env = some m →
      select_model cli env = .ok m) ∧
    (∀ reg, cli.model = none → cli.task = none → env.model_name_env = none →
      env.registry = .ok reg → select_model cli env = .ok reg.default_model) := by
  refine ⟨?_, ?_, ?_, ?_, ?_⟩
  · intro m hm
    simp [select_model, determine_model_priority, hm, resolve_model_priority]
  · intro t reg m hM hT hR hL
    simp [select_model, determine_model_priority, hM, hT, resolve_model_priority,
      hR, hL]
  · intro t reg hM hT hR hL
    simp [select_model, determine_model_priority, hM, hT, resolve_model_priority,
      hR, hL]
  · intro m hM hT hE
    simp [select_model, determine_model_priority, hM, hT, hE, resolve_model_priority]
  · intro reg hM hT hE hR
    simp [select_model, determine_model_priority, hM, hT, hE, resolve_model_priority,
      hR]

/-- A configuration with every selection source present at once. -/
def w1Cli : Cli :=
  ⟨some "explicit-model", some "quick-review", false, none, none, some "a.rs",
    false, none, none, none, 1, false, false⟩

/-- An environment whose registry load fails and whose `MODEL_NAME` is set. -/
def w1Env : Env :=
  ⟨some "env-model", .error "Failed to read models.json. Ensure models.json exists in the current directory or next to the binary.",
    fun _ => none, fun _ _ _ _ _ => .error "offline", fun _ => "0.0", fun _ => "0.0"⟩

/-- Witness for C1: with all four sources present (and the registry load even
failing), the explicit override wins verbatim. -/
theorem select_model_priority_order_witness :
    select_model w1Cli w1Env = .ok "explicit-model" :=
  (select_model_priority_order w1Cli w1Env).1 "explicit-model" rfl

/-- Claim C4: adaptive substitution never changes the resolved model when an
explicit override is present, and never for a single-file batch, whatever the
resolved model's speed class: in both cases the adaptive selector returns
exactly the plain resolution. -/
theorem adaptive_identity_on_override_or_single (cli : Cli) (env : Env)
    (reg : ModelRegistry) (file_count : Nat) (hreg : env.registry = .ok reg)
    (h : cli.model.isSome = true ∨ file_count ≤ 1) :
    select_model_adaptive cli env file_count = select_model cli env := by
  simp only [select_model_adaptive]
  cases hsel : select_model cli env with
  | error e => rfl
  | ok m =>
    rcases h with hM | hC
    · simp [hM, hreg]
    · have hnotgt : ¬ (file_count > 1) := by omega
      simp [hnotgt]

/-- A configuration with an explicit override of a deliberately slow model. -/
def w4Cli : Cli :=
  ⟨some "big-slow-model", none, false, none, none, some "a.rs,b.rs", false,
    none, none, none, 1, false, false⟩

/-- A registry that knows the explicit model as `slow` and also has a fast
model available. -/
def w4Reg : ModelRegistry :=
  ⟨[⟨"big-slow-model", "9.0", "13B", "slow"⟩, ⟨"tiny-model", "1.9", "3B", "very-fast"⟩],
    [("quick-review", "tiny-model")], "big-slow-model"⟩

/-- An environment carrying `w4Reg`. -/
def w4Env : Env :=
  ⟨none, .ok w4Reg, fun _ => some "fn main() \x7b\x7d", fun _ _ _ _ _ => .ok "review",
    fun _ => "0.0", fun _ => "0.0"⟩

/-- Witness for C4: five files and an explicitly chosen slow model — the
adaptive selector still returns the plain resolution. -/
theorem adaptive_identity_on_override_or_single_witness :
    select_model_adaptive w4Cli w4Env 5 = select_model w4Cli w4Env :=
  adaptive_identity_on_override_or_single w4Cli w4Env w4Reg 5 rfl (Or.inl rfl)

/-- Claim C5: for a multi-file batch with no explicit override whose resolved
model's registry descriptor is moderate or slow, adaptive selection
substitutes the first descriptor in registry order whose speed class is fast
or very-fast, and keeps the original resolution when no such descriptor
exists. -/
theorem adaptive_substitutes_fast_model (cli : Cli) (env : Env)
    (reg : ModelRegistry) (file_count : Nat) (sel : String) (mi : ModelInfo)
    (hreg : env.registry = .ok reg) (hM : cli.model = none)
    (hC : 1 < file_count) (hsel : select_model cli env = .ok sel)
    (hfind : reg.models.find? (fun m => m.name == sel) = some mi)
    (hspeed : mi.speed = "moderate" ∨ mi.speed = "slow") :
    select_model_adaptive cli env file_count =
      .ok (match reg.models.find? (fun m => m.speed == "fast" || m.speed == "very-fast") with
           | some fast_model => fast_model.name
           | none => sel) := by
  have hspeedB : (mi.speed == "moderate" || mi.speed == "slow") = true := by
    rcases hspeed with h | h <;> simp [h]
  simp only [select_model_adaptive, hsel, hM, Option.isSome_none, Bool.false_eq_true,
    if_false, hreg]
  simp only [hC, if_true, gt_iff_lt, hfind, hspeedB, Bool.true_and]
  cases reg.models.find? (fun m => m.speed == "fast" || m.speed == "very-fast") with
  | none => simp [hC]
  | some fast_model => simp [hC]

/-- A configuration with no override and no task, falling to the registry
default. -/
def w5Cli : Cli :=
  ⟨none, none, false, none, none, some "a.rs,b.rs,c.rs", false, none, none,
    none, 1, false, false⟩

/-- A registry whose default model is moderate and whose second descriptor is
the first fast one. -/
def w5Reg : ModelRegistry :=
  ⟨[⟨"steady-model", "5.0", "7B", "moderate"⟩, ⟨"quick-model", "2.0", "3B", "fast"⟩],
    [("quick-review", "quick-model")], "steady-model"⟩

/-- An environment carrying `w5Reg` and no `MODEL_NAME`. -/
def w5Env : Env :=
  ⟨none, .ok w5Reg, fun _ => some "fn main() \x7b\x7d", fun _ _ _ _ _ => .ok "review",
    fun _ => "0.0", fun _ => "0.0"⟩

/-- Witness for C5: a three-file batch resolving to the moderate default gets
the first fast descriptor substituted. -/
theorem adaptive_substitutes_fast_model_witness :
    select_model_adaptive w5Cli w5Env 3 = .ok "quick-model" :=
  adaptive_substitutes_fast_model w5Cli w5Env w5Reg 3 "steady-model"
    ⟨"steady-model", "5.0", "7B", "moderate"⟩ rfl rfl (by decide) rfl rfl
    (Or.inl rfl)

/-- Model selection reads only the environment variable and the registry. -/
theorem select_model_env_congr (cli : Cli) (env env' : Env)
    (h1 : env.model_name_env = env'.model_name_env)
    (h2 : env.registry = env'.registry) :
    select_model cli env = select_model cli env' := by
  simp [select_model, h1, h2]

/-- Adaptive selection reads only the environment variable and the registry. -/
theorem select_model_adaptive_env_congr (cli : Cli) (env env' : Env)
    (h1 : env.model_name_env = env'.model_name_env)
    (h2 : env.registry = env'.registry) (fc : Nat) :
    select_model_adaptive cli env fc = select_model_adaptive cli env' fc := by
  simp only [select_model_adaptive, select_model_env_congr cli env env' h1 h2, h2]

/-- Claim C10: when the caller supplies no timeout the inference call is
issued with exactly 120 seconds, and a supplied timeout is used verbatim: the
timeout expression defaults to 120, and the review outcome depends on the
backend only at that timeout value. -/
theorem timeout_default_is_120 (cli : Cli) :
    (cli.timeout = none → timeout_secs cli = 120) ∧
    (∀ t, cli.timeout = some t → timeout_secs cli = t) ∧
    (∀ (env : Env)
      (f g : Nat → String → String → String → Nat → Except String String)
      (fp : String) (fc run : Nat),
      (∀ r s u m, f r s u m (timeout_secs cli) = g r s u m (timeout_secs cli)) →
      review_file_with_count cli { env with ollama := f } fp fc run =
        review_file_with_count cli { env with ollama := g } fp fc run) := by
  refine ⟨fun h => by simp [timeout_secs, h], fun t h => by simp [timeout_secs, h], ?_⟩
  intro env f g fp fc run hagree
  have hsel : select_model_adaptive cli { env with ollama := f } fc =
      select_model_adaptive cli { env with ollama := g } fc :=
    select_model_adaptive_env_congr cli _ _ rfl rfl fc
  simp only [review_file_with_count, hsel]
  cases select_model_adaptive cli { env with ollama := g } fc with
  | error e => rfl
  | ok m =>
    cases env.readFile fp with
    | none => rfl
    | some document =>
      cases hdr : cli.dry_run with
      | true => simp
      | false => simp [hagree]

/-- A configuration with no `--timeout` flag. -/
def w10Cli : Cli :=
  ⟨some "some-model", none, false, none, none, some "a.rs", false, none, none,
    none, 1, false, false⟩

/-- A base environment for the C10 witness. -/
def w10Env : Env :=
  ⟨none, .ok ⟨[], [], "default"⟩, fun _ => some "fn main() \x7b\x7d",
    fun _ _ _ _ _ => .ok "review", fun _ => "0.0", fun _ => "0.0"⟩

/-- A backend that only answers at a 120-second timeout. -/
def w10OllamaA : Nat → String → String → String → Nat → Except String String :=
  fun _ _ _ _ t => if t = 120 then .ok "answer at 120" else .error "wrong timeout"

/-- A backend agreeing with `w10OllamaA` at 120 seconds and nowhere else. -/
def w10OllamaB : Nat → String → String → String → Nat → Except String String :=
  fun _ _ _ _ t => if t = 120 then .ok "answer at 120" else .ok "other timeout"

/-- Witness for C10: without `--timeout`, the review outcome is the same for
two backends that agree only at 120 seconds. -/
theorem timeout_default_is_120_witness :
    review_file_with_count w10Cli { w10Env with ollama := w10OllamaA } "a.rs" 1 1 =
      review_file_with_count w10Cli { w10Env with ollama := w10OllamaB } "a.rs" 1 1 :=
  (timeout_default_is_120 w10Cli).2.2 w10Env w10OllamaA w10OllamaB "a.rs" 1 1
    (fun r s u m => by simp [w10OllamaA, w10OllamaB, timeout_secs, w10Cli])

/-- Claim C7: `*.rs` matches `test.rs` and rejects `test.js`; `*` matches
every filename; `*.\x7bjs,ts\x7d` matches `a.js` and `a.ts` and rejects
`a.rs`; a pattern that is neither `*` nor of the `*.`‑shapes matches only a
filename exactly equal to the pattern; matching considers the filename only,
never the rest of the path. -/
theorem matches_pattern_spec :
    (matches_pattern "test.rs" "*.rs" = true) ∧
    (matches_pattern "test.js" "*.rs" = false) ∧
    (∀ p, matches_pattern p "*" = true) ∧
    (matches_pattern "a.js" "*.\x7bjs,ts\x7d" = true) ∧
    (matches_pattern "a.ts" "*.\x7bjs,ts\x7d" = true) ∧
    (matches_pattern "a.rs" "*.\x7bjs,ts\x7d" = false) ∧
    (∀ pat p, pat ≠ "*" → pat.data.take 2 ≠ ['*', '.'] →
      matches_pattern p pat = ((fileNameOf p).getD "" == pat)) ∧
    (∀ p q pat, fileNameOf p = fileNameOf q →
      matches_pattern p pat = matches_pattern q pat) := by
  refine ⟨by decide, by decide, ?_, by decide, by decide, by decide, ?_, ?_⟩
  · intro p
    simp [matches_pattern]
  · intro pat p hstar hshape
    simp only [matches_pattern, if_neg hstar]
    split
    · next extChars heq => rw [heq] at hshape; simp at hshape
    · rfl
  · intro p q pat h
    simp only [matches_pattern, h]

/-- Witness for C7: the exact-match fallback matches a bare filename against
a shapeless pattern, and matching ignores the directory part of the path. -/
theorem matches_pattern_spec_witness :
    matches_pattern "srcdir/Makefile" "Makefile" = true ∧
    matches_pattern "srcdir/deep/test.rs" "*.rs" = matches_pattern "test.rs" "*.rs" := by
  constructor
  · exact (matches_pattern_spec.2.2.2.2.2.2.1 "Makefile" "srcdir/Makefile"
      (by decide) (by decide)).trans (by decide)
  · exact matches_pattern_spec.2.2.2.2.2.2.2 "srcdir/deep/test.rs" "test.rs" "*.rs"
      (by decide)

/-- Claim C8: in multi-run mode (run count > 1), a file whose runs all fail
is reported as a file-level hard failure, and a file with at least one
successful run does not fail — its output aggregates the successful runs
only (failed runs are skipped). -/
theorem multi_run_failure_policy (cli : Cli) (env : Env) (fp : String)
    (fc : Nat) (hN : 1 < cli.runs) :
    ((∀ i, 1 ≤ i → i ≤ cli.runs →
        (review_file_with_count cli env fp fc i).isOk = false) →
      review_file_multi_run cli env fp fc = .error "All validation runs failed") ∧
    (∀ k s, 1 ≤ k → k ≤ cli.runs →
      review_file_with_count cli env fp fc k = .ok s →
      review_file_multi_run cli env fp fc =
        .ok (renderRuns cli env (successfulRuns cli env fp fc))) := by
  have hnle : ¬ (cli.runs ≤ 1) := by omega
  constructor
  · intro hall
    have hnil : successfulRuns cli env fp fc = [] := by
      unfold successfulRuns
      rw [List.filterMap_eq_nil_iff]
      intro a ha
      have hmem := List.mem_range'_1.mp ha
      have hfalse := hall a hmem.1 (by omega)
      cases hrev : review_file_with_count cli env fp fc a with
      | ok m => rw [hrev] at hfalse; simp [Except.isOk, Except.toBool] at hfalse
      | error e => simp
    simp [review_file_multi_run, hnle, hnil]
  · intro k s hk1 hk2 hkok
    have hne : successfulRuns cli env fp fc ≠ [] := by
      unfold successfulRuns
      intro hnil
      rw [List.filterMap_eq_nil_iff] at hnil
      have hkmem : k ∈ List.range' 1 cli.runs :=
        List.mem_range'_1.mpr ⟨hk1, by omega⟩
      have hnone := hnil k hkmem
      rw [hkok] at hnone
      simp at hnone
    simp [review_file_multi_run, hnle, hne]

/-- A two-run configuration with an explicit model (no validation report). -/
def w8Cli : Cli :=
  ⟨some "w8-model", none, false, none, none, some "a.rs", false, none, none,
    none, 2, false, false⟩

/-- An environment whose backend fails on run 1 and succeeds on run 2. -/
def w8Env : Env :=
  ⟨none, .ok ⟨[], [], "default"⟩, fun _ => some "fn main() \x7b\x7d",
    fun r _ _ _ _ => if r = 1 then .error "first run failed" else .ok "second run output",
    fun _ => "0.0", fun _ => "0.0"⟩

/-- An environment whose backend fails on every run. -/
def w8EnvAllFail : Env :=
  ⟨none, .ok ⟨[], [], "default"⟩, fun _ => some "fn main() \x7b\x7d",
    fun _ _ _ _ _ => .error "backend down", fun _ => "0.0", fun _ => "0.0"⟩

/-- Witness for C8: with two runs, an always-failing backend escalates to the
file-level failure, while one failed and one successful run yield the
aggregation of the single successful run. -/
theorem multi_run_failure_policy_witness :
    review_file_multi_run w8Cli w8EnvAllFail "a.rs" 1 =
      .error "All validation runs failed" ∧
    review_file_multi_run w8Cli w8Env "a.rs" 1 = .ok "## Run 1\n\nsecond run output" := by
  constructor
  · exact (multi_run_failure_policy w8Cli w8EnvAllFail "a.rs" 1 (by decide)).1
      (fun i _ _ => rfl)
  · exact (multi_run_failure_policy w8Cli w8Env "a.rs" 1 (by decide)).2 2
      "second run output" (by decide) (by decide) rfl

/-- With no explicit model and an unknown task label, model resolution fails
with the enumerating configuration error. -/
theorem select_model_unknown_task (cli : Cli) (env : Env) (reg : ModelRegistry)
    (t : String) (hreg : env.registry = .ok reg) (hM : cli.model = none)
    (hT : cli.task = some t) (hun : lookupMap reg.task_mappings t = none) :
    select_model cli env = .error (unknown_task_message t reg) := by
  simp [select_model, determine_model_priority, hM, hT, resolve_model_priority,
    hreg, hun]

/-- A failed model resolution fails the whole per-file review, for any file
and any run, before anything reaches the filesystem or the backend. -/
theorem review_single_run_unknown_task (cli : Cli) (env : Env)
    (reg : ModelRegistry) (t : String) (hreg : env.registry = .ok reg)
    (hM : cli.model = none) (hT : cli.task = some t)
    (hun : lookupMap reg.task_mappings t = none) (fp : String) (fc run : Nat) :
    review_file_with_count cli env fp fc run =
      .error (unknown_task_message t reg) := by
  have hsel := select_model_unknown_task cli env reg t hreg hM hT hun
  simp [review_file_with_count, select_model_adaptive, hsel]

/-- Claim C3 (amended): a configuration error during model resolution does
not abort the batch run — every file in the batch is still attempted — but
no file is reviewed and no result is emitted: in single-run mode each
per-file result is the configuration error itself, nothing reaches the
backend, and the batch output is the "No Reviews Generated" marker. -/
theorem config_error_fails_each_file (cli : Cli) (env : Env)
    (reg : ModelRegistry) (t : String) (files : List String)
    (hreg : env.registry = .ok reg) (hM : cli.model = none)
    (hT : cli.task = some t) (hun : lookupMap reg.task_mappings t = none)
    (hruns : cli.runs ≤ 1) :
    review_multiple_files cli env files =
      ⟨files.map (fun f => (f, .error (unknown_task_message t reg))),
        "# No Reviews Generated\n\n"⟩ := by
  have hone : ∀ fp fc, review_file_multi_run cli env fp fc =
      .error (unknown_task_message t reg) := by
    intro fp fc
    simp [review_file_multi_run, hruns,
      review_single_run_unknown_task cli env reg t hreg hM hT hun fp fc 1]
  simp [review_multiple_files, hone, List.filterMap_map, Function.comp]

/-- The registry for the C3 scenario (one known task, not the one asked). -/
def c3Reg : ModelRegistry :=
  ⟨[], [("quick-review", "fast-model")], "default-model"⟩

/-- A two-file batch asking for an unknown task label. -/
def c3Cli : Cli :=
  ⟨none, some "bogus-task", false, none, none, some "a.rs,b.rs", false, none,
    none, none, 1, false, false⟩

/-- An environment carrying `c3Reg`, a readable filesystem and a healthy
backend (neither of which is ever reached). -/
def c3Env : Env :=
  ⟨none, .ok c3Reg, fun _ => some "fn main() \x7b\x7d",
    fun _ _ _ _ _ => .ok "review", fun _ => "0.0", fun _ => "0.0"⟩

/-- The configuration error message of the C3 scenario. -/
def c3Msg : String :=
  "Unknown task type: \x27bogus-task\x27. Available tasks: quick-review"

/-- Counterexample to claim C3 as stated: with an unknown task label — model
resolution fails with a configuration error — the run does not abort before
any file is processed: `handle_files` finishes successfully and both files
of the batch were attempted, each recording the per-file error. -/
theorem config_error_abort_cex :
    (select_model c3Cli c3Env).isOk = false ∧
    handle_files c3Cli c3Env =
      .ok (.batch ⟨[("a.rs", .error c3Msg), ("b.rs", .error c3Msg)],
        "# No Reviews Generated\n\n"⟩) ∧
    (handle_files c3Cli c3Env).isOk = true := by
  refine ⟨rfl, ?_, rfl⟩
  decide

/-- Witness for C3 (amended): the two-file batch of the counterexample
scenario evaluates to exactly the all-files-attempted, no-review outcome. -/
theorem config_error_fails_each_file_witness :
    review_multiple_files c3Cli c3Env ["a.rs", "b.rs"] =
      ⟨[("a.rs", .error c3Msg), ("b.rs", .error c3Msg)],
        "# No Reviews Generated\n\n"⟩ := by
  have h := config_error_fails_each_file c3Cli c3Env c3Reg "bogus-task"
    ["a.rs", "b.rs"] rfl rfl rfl (by decide) (by decide)
  exact h.trans (by decide)

/-- The `--files ""` invocation of claim C6 (no model, no task, default
configuration otherwise). -/
def c6Cli : Cli :=
  ⟨none, none, false, some "srcdir", none, some "", false, none, none, none,
    1, false, false⟩

/-- The registry-load failure message. -/
def c6RegistryErr : String :=
  "Failed to read models.json. Ensure models.json exists in the current directory or next to the binary."

/-- An environment with no registry available, so that any attempt at model
resolution is visible as this error. -/
def c6Env : Env :=
  ⟨none, .error c6RegistryErr, fun _ => none, fun _ _ _ _ _ => .ok "review",
    fun _ => "0.0", fun _ => "0.0"⟩

/-- Claim C6, evaluated at the failing input `--files ""`: splitting the
empty argument on `,` yields one empty-string target, never an empty list,
so the handler does not produce the zero-targets outcome; it attempts a
review of the empty path, and the per-file error is the registry-load
failure — showing model resolution was invoked.  Directory mode, by
contrast, does turn a zero-file discovery into the distinct "no files found"
outcome. -/
theorem empty_files_arg_attempts_review :
    split_files_arg "" = [""] ∧
    handle_files c6Cli c6Env =
      .ok (.batch ⟨[("", .error c6RegistryErr)], "# No Reviews Generated\n\n"⟩) ∧
    isNoFiles (handle_files c6Cli c6Env) = false ∧
    handle_directory c6Cli c6Env (.ok []) =
      .ok (.noFiles "No files found matching pattern \x27*\x27 in srcdir") := by
  refine ⟨rfl, ?_, rfl, ?_⟩
  · decide
  · decide

/-- A JSON parse fails immediately on a leading backtick. -/
theorem parseValue_backtick (fuel : Nat) (cs : List Char) :
    parseValue (fuel + 1) ('`' :: cs) = .error "expected value" := by
  have hws : skipWs ('`' :: cs) = '`' :: cs := by
    unfold skipWs
    simp [isWsChar]
  unfold parseValue
  rw [hws]
  simp

/-- The character list of a fenced payload starts with the opening fence. -/
theorem jsonFence_data (s : String) :
    (jsonFence s).data =
      '`' :: '`' :: '`' :: 'j' :: 's' :: 'o' :: 'n' :: '\n' ::
        (s.data ++ ('\n' :: '`' :: '`' :: '`' :: [])) := by
  cases s with
  | mk l => rfl

/-- Dropping a prefix cannot erase a final element the predicate rejects. -/
theorem dropWhile_append_singleton_ne_nil (p : Char → Bool) (a : Char)
    (ha : p a = false) : ∀ l : List Char, (l ++ [a]).dropWhile p ≠ []
  | [] => by simp [List.dropWhile, ha]
  | x :: xs => by
    by_cases hx : p x = true
    · simpa [List.dropWhile_cons, hx] using
        dropWhile_append_singleton_ne_nil p a ha xs
    · simp [List.dropWhile_cons, hx]

/-- Trimming a string whose first character is not whitespace is nonempty. -/
theorem trimChars_cons_ne_nil (a : Char) (cs : List Char)
    (ha : isWsChar a = false) : trimChars (a :: cs) ≠ [] := by
  unfold trimChars
  rw [List.dropWhile_cons]
  simp only [ha, Bool.false_eq_true, if_false, List.reverse_cons]
  intro hnil
  rw [List.reverse_eq_nil_iff] at hnil
  exact dropWhile_append_singleton_ne_nil isWsChar a ha cs.reverse hnil

/-- Two strings are equal exactly when their character lists are. -/
theorem stringMk_eq_empty_iff (l : List Char) : String.mk l = "" ↔ l = [] := by
  constructor
  · intro h
    exact congrArg String.data h
  · intro h
    rw [h]

/-- Claim C2 (amended): the response handling of `call_ollama` applies the
structural parse to the text as-is, with no fenced-block extraction and no
retry: a response that parses to nonempty content is returned unchanged,
while the same payload wrapped in a triple-backtick `json` fence fails the
parse and surfaces as an error. -/
theorem no_fence_extraction_amended (s c : String)
    (hs : ollama_response_content s = .ok c)
    (hsne : rustTrim s ≠ "") (hcne : rustTrim c ≠ "") :
    call_ollama_handle_text s = .ok c ∧
    (call_ollama_handle_text (jsonFence s)).isOk = false := by
  constructor
  · simp [call_ollama_handle_text, hsne, hs, hcne]
  · have hfne : rustTrim (jsonFence s) ≠ "" := by
      unfold rustTrim
      rw [jsonFence_data]
      intro h
      exact trimChars_cons_ne_nil '`' _ rfl ((stringMk_eq_empty_iff _).mp h)
    have herr : ollama_response_content (jsonFence s) = .error "expected value" := by
      unfold ollama_response_content parseJsonText
      rw [jsonFence_data]
      rw [parseValue_backtick]
    simp [call_ollama_handle_text, hfne, herr, Except.isOk, Except.toBool]

/-- The round-trip payload of the specification's example, as the Ollama
response body it stands for. -/
def c2Payload : String :=
  "\x7b\"message\": \x7b\"content\": \"Looks good.\"\x7d\x7d"

/-- Counterexample to claim C2 as stated: no fenced-block extraction happens
anywhere in the response handling — the payload parses bare but fails when
wrapped in a triple-backtick `json` fence, so normalizing the fenced text
does not yield the result of normalizing the bare payload. -/
theorem fence_extraction_missing_cex :
    call_ollama_handle_text c2Payload = .ok "Looks good." ∧
    (call_ollama_handle_text (jsonFence c2Payload)).isOk = false := by
  constructor
  · decide
  · decide

/-- A second valid response body, for exercising the amended claim. -/
def c2WitnessPayload : String :=
  "\x7b\"message\": \x7b\"content\": \"## Issues Found\"\x7d\x7d"

/-- Witness for C2 (amended), at a concrete valid payload. -/
theorem no_fence_extraction_amended_witness :
    call_ollama_handle_text c2WitnessPayload = .ok "## Issues Found" ∧
    (call_ollama_handle_text (jsonFence c2WitnessPayload)).isOk = false :=
  no_fence_extraction_amended c2WitnessPayload "## Issues Found" (by decide)
    (by decide) (by decide)

/-- The example document from `load_model_registry`'s own doc comment: only
`task_mappings` and `default_model`, no `models` array. -/
def c9DocExample : String :=
  "\x7b\n  \"task_mappings\": \x7b\n    \"quick-review\": \"qwen2.5-coder:3b\",\n    \"security\": \"deepseek-coder-v2\"\n  \x7d,\n  \"default_model\": \"qwen2.5-coder:7b\"\n\x7d"

/-- The same registry document with a `models` array supplied. -/
def c9WithModels : String :=
  "\x7b\"models\": [\x7b\"name\": \"qwen2.5-coder:3b\", \"size_gb\": 1.9, \"parameters\": \"3B\", \"speed\": \"very-fast\"\x7d], \"task_mappings\": \x7b\"quick-review\": \"qwen2.5-coder:3b\"\x7d, \"default_model\": \"qwen2.5-coder:3b\"\x7d"

/-- Claim C9, evaluated at the failing input — the example document in
`load_model_registry`'s own doc comment, which omits the descriptor list:
the document is well-formed JSON, yet the derived deserializer rejects it
because `models` is a required `Vec` field, and the load surfaces the hard
parse error; supplying the `models` array makes the same document load. -/
theorem registry_requires_models_field :
    (parseJsonText c9DocExample).isOk = true ∧
    Except.bind (parseJsonText c9DocExample) decodeModelRegistry =
      .error "missing field `models`" ∧
    load_model_registry (some c9DocExample) =
      .error "Failed to parse models.json" ∧
    load_model_registry (some c9WithModels) =
      .ok ⟨[⟨"qwen2.5-coder:3b", "1.9", "3B", "very-fast"⟩],
        [("quick-review", "qwen2.5-coder:3b")], "qwen2.5-coder:3b"⟩ := by
  refine ⟨?_, ?_, ?_, ?_⟩
  · decide
  · decide
  · decide
  · decide
